import Mathlib

/-!
Shallow embedding of the ExplainableNRS training/evaluation core
(`src/modules/trainer/mind_rs_trainer.py`) and of the LSTUR model
constructor (`src/modules/models/nrs/lstur.py`), together with proofs
settling the frozen claims about them.

Machine conventions: Python ints are modelled as `Int`/`Nat`
(Python ints are unbounded), Python floats that arise here (the
`valid_interval` fraction, metric values) are modelled as `ℚ` — every
concrete value the claims use (`0.5`, small decimals) is exactly
representable.  Python exceptions are modelled by an explicit
`PyExc` tag and fallible code returns `Except PyExc _`.
-/

namespace ExplainableNRS

/-- The Python exception classes that appear in the embedded code:
`KeyError`, `RuntimeError`, `ValueError`, `NameError`, `AssertionError`. -/
inductive PyExc where
  | keyError
  | runtimeError
  | valueError
  | nameError
  | assertionError
deriving DecidableEq, Repr

/-- Python truthiness of a class object: every class object is truthy. -/
def pyClassTruthy (_ : PyExc) : Bool := true

/-- Python `a or b` on exception-class objects: returns the first operand
when it is truthy, otherwise the second. -/
def pyOr (a b : PyExc) : PyExc := if pyClassTruthy a then a else b

/-- The exception-class expression of the clause
`except KeyError or RuntimeError:` in `_valid_epoch`
(`mind_rs_trainer.py` line 181): Python evaluates the expression
`KeyError or RuntimeError` first, and the clause catches instances of
whatever single class that expression denotes. -/
def exceptClause : PyExc := pyOr PyExc.keyError PyExc.runtimeError

/-- Whether a raised exception is caught by an `except` clause whose
expression evaluated to the class `clause`.  The five modelled classes
are pairwise unrelated by inheritance, so `isinstance` is plain equality. -/
def caughtBy (clause exc : PyExc) : Bool := clause == exc

/-! ### `_valid_epoch`: fast-evaluation eligibility and the cache build
(`mind_rs_trainer.py` lines 151, 159-182) -/

/-- The configuration values read by `_valid_epoch` that decide
fast-evaluation eligibility. `with_entropy` is the trainer attribute of
the same name; the other three come from `self.config`. -/
structure EvalConfig where
  valid_method : String
  return_weight : Bool
  with_entropy : Bool
  topic_variant : String
deriving DecidableEq, Repr

/-- The condition on lines 165-170 of `mind_rs_trainer.py` guarding the
news-embedding cache build. -/
def fastEvalEligible (c : EvalConfig) : Bool :=
  c.valid_method == "fast_evaluation" && !c.return_weight && !c.with_entropy &&
    !(c.topic_variant == "variational_topic")

/-- The `try`/`except` block of `_valid_epoch` (lines 164-182): when the
eligibility condition holds, attempt the cache build (`get_news_embeds`,
whose outcome is the parameter `buildResult`); a raised exception is
swallowed (setting `news_embeds = None`) only when `exceptClause`
catches it.  When the condition fails, `news_embeds = None` directly. -/
def newsEmbedsStep {α : Type} (c : EvalConfig) (buildResult : Except PyExc α) :
    Except PyExc (Option α) :=
  if fastEvalEligible c then
    match buildResult with
    | Except.ok e => Except.ok (some e)
    | Except.error exc =>
        if caughtBy exceptClause exc then Except.ok none else Except.error exc
  else Except.ok none

/-- An eligible fast-evaluation configuration (all defaults). -/
def fastConfig : EvalConfig :=
  { valid_method := "fast_evaluation", return_weight := false,
    with_entropy := false, topic_variant := "base" }

/-! ### `_train_epoch`: interleaved validation trigger
(`mind_rs_trainer.py` lines 134-135 and 139) -/

/-- `math.ceil(self.len_epoch * self.valid_interval)` (line 134). -/
def validTriggerPeriod (len_epoch : ℕ) (valid_interval : ℚ) : ℤ :=
  ⌈(len_epoch : ℚ) * valid_interval⌉

/-- The interleaved-validation trigger on line 134:
`(batch_idx + 1) % math.ceil(self.len_epoch * self.valid_interval) == 0`. -/
def validTrigger (len_epoch : ℕ) (valid_interval : ℚ) (batch_idx : ℕ) : Bool :=
  ((batch_idx : ℤ) + 1) % validTriggerPeriod len_epoch valid_interval == 0

/-- The 0-indexed batch indices of an epoch at which `_train_epoch`
calls `self._validation(epoch, batch_idx)` inside the batch loop. -/
def interleavedValidations (len_epoch : ℕ) (valid_interval : ℚ) : List ℕ :=
  (List.range len_epoch).filter (validTrigger len_epoch valid_interval)

/-- All validation call points of one epoch: the interleaved ones, then
the unconditional final `self._validation(epoch, self.len_epoch, False)`
on line 139, tagged by the `batch_idx` argument it receives. -/
def epochValidationPoints (len_epoch : ℕ) (valid_interval : ℚ) : List ℕ :=
  interleavedValidations len_epoch valid_interval ++ [len_epoch]

/-! ### `_valid_epoch`: per-impression metric rows
(`mind_rs_trainer.py` lines 197-213) -/

/-- The per-impression fields of a validation batch that the metric loop
reads: `label`, `pred` (the model's scores), `candidate_length` and
`impression_index`, all aligned along the batch dimension.  Label and
score rows are padded to a common width; `candidate_length` holds each
impression's true (unpadded) candidate count. -/
structure ValidBatch where
  label : List (List ℚ)
  pred : List (List ℚ)
  candidate_length : List ℕ
  impression_index : List ℕ

/-- One impression's result row (line 209-213):
`{m.__name__: m(label[i][:can_len[i]], pred[i][:can_len[i]]) * 100 for m in self.metric_funcs}`.
A metric function is a named map from `(labels, scores)` to a scalar. -/
def metricRow (metrics : List (String × (List ℚ → List ℚ → ℚ)))
    (lab pred : List ℚ) (n : ℕ) : List (String × ℚ) :=
  metrics.map (fun m => (m.1, m.2 (lab.take n) (pred.take n) * 100))

/-- The inner loop over impressions of one validation batch
(lines 204-213): for each `i` in `range(len(label))`, store the metric
row under `batch_dict["impression_index"][i]`. -/
def batchResults (metrics : List (String × (List ℚ → List ℚ → ℚ)))
    (b : ValidBatch) : List (ℕ × List (String × ℚ)) :=
  (List.range b.label.length).map (fun i =>
    (b.impression_index.getD i 0,
     metricRow metrics (b.label.getD i []) (b.pred.getD i []) (b.candidate_length.getD i 0)))

/-- A concrete binary-accuracy metric function, used to instantiate the
spec's `accuracy` scenario: the fraction of positions whose thresholded
score (1 when above 1/2, else 0) equals the label. -/
def accuracy (lab pred : List ℚ) : ℚ :=
  (((lab.zip pred).countP
      (fun lp => decide ((if (1 : ℚ)/2 < lp.2 then (1 : ℚ) else 0) = lp.1))) : ℚ)
    / lab.length

/-- The batch loop of `_valid_epoch` followed by the cleanup statement
`del batch_dict` (lines 197-213 and 265): the rows of all batches are
accumulated into the result table; after the loop, `del batch_dict`
deletes the loop variable, which is bound only if the loader yielded at
least one batch — on an empty loader the `del` raises `NameError`. -/
def validEpochRun (metrics : List (String × (List ℚ → List ℚ → ℚ)))
    (batches : List ValidBatch) : Except PyExc (List (ℕ × List (String × ℚ))) :=
  let rows := (batches.map (batchResults metrics)).flatten
  if batches.isEmpty then Except.error PyExc.nameError else Except.ok rows

/-! ### `_valid_epoch`: diagnostic weight capture and its cap
(`mind_rs_trainer.py` lines 214-243) -/

/-- The weight-capture loop over validation batches with the early stop
of lines 242-243 (`if vi >= saved_weight_num and return_weight: break`),
restricted to one captured field and to `return_weight = True`.
`batches` lists, per batch, the per-impression entries the body appends
to that field (one entry per impression in the batch, lines 231-241);
`vi` is the running batch index.  Each batch is processed in full before
the break test, so the batch with index `cap` still contributes. -/
def capturedEntries {α : Type} (cap : ℕ) : ℕ → List (List α) → List α
  | _, [] => []
  | vi, b :: rest => if cap ≤ vi then b else b ++ capturedEntries cap (vi + 1) rest

/-! ### `_valid_epoch`: weight-dump merge and save
(`mind_rs_trainer.py` lines 255-264) -/

/-- The merge of the newly captured dump with the prior on-disk dump
(lines 259-263): for every key of the new `weight_dict` (in order),
`weight_dict[key].extend(old_weights[key])`, so the saved sequence is the
new entries followed by the old ones; a key of the new dump absent from
the old file raises `KeyError`, and keys present only in the old file
are dropped.  A dump is a finite map, modelled as an association list. -/
def mergeDump {α : Type} (newDump oldDump : List (String × List α)) :
    Except PyExc (List (String × List α)) :=
  newDump.mapM (fun kv =>
    match oldDump.lookup kv.1 with
    | some ov => Except.ok (kv.1, kv.2 ++ ov)
    | none => Except.error PyExc.keyError)

/-! ### `_validation`: model-mode restoration
(`mind_rs_trainer.py` lines 43-57) -/

/-- The model's train/eval mode. -/
inductive Mode where
  | train
  | eval
deriving DecidableEq, Repr

/-- One execution of `_validation` (lines 43-57), abstracted to the model
mode it leaves behind and the exception it propagates (if any).
`_valid_epoch` switches the model to eval mode (line 157) before its
outcome `valid_epoch_result`; on success, `_monitor` runs when
`do_monitor` is set (lines 54-55) with outcome `monitor_result`; only
after both does `self.model.train()` on line 56 restore training mode —
there is no `try`/`finally` around the body. -/
def validationRun {α : Type} (valid_epoch_result : Except PyExc α)
    (monitor_result : Except PyExc Unit) (do_monitor : Bool) : Mode × Option PyExc :=
  match valid_epoch_result with
  | Except.error e => (Mode.eval, some e)
  | Except.ok _ =>
    match do_monitor, monitor_result with
    | true, Except.error e => (Mode.eval, some e)
    | true, Except.ok _ => (Mode.train, none)
    | false, _ => (Mode.train, none)

/-! ### `LSTURRSModel.__init__`
(`src/modules/models/nrs/lstur.py` lines 15-41) -/

/-- The constructor arguments of `LSTURRSModel` relevant to its failure
behaviour: `window_size` (a Python int, inherited via `MindNRSBase`),
`user_embed_method` and `uid_path` (both possibly absent). -/
structure LSTURArgs where
  window_size : ℤ
  user_embed_method : Option String
  uid_path : Option String
deriving DecidableEq

/-- Line 20: `padding = (self.window_size - 1) // 2` — Python `//` is
floor division, `Int.fdiv`. -/
def lsturPadding (a : LSTURArgs) : ℤ := (a.window_size - 1).fdiv 2

/-- The failure-relevant control flow of `LSTURRSModel.__init__`:
line 21 asserts `2 * padding == self.window_size - 1` (raising
`AssertionError` otherwise); lines 33-36 then raise `ValueError` when
`user_embed_method` is `"init"` or `"cat"` but no `uid_path` was given.
On success the constructor completes (the computed padding stands in for
the constructed state). -/
def lsturInit (a : LSTURArgs) : Except PyExc ℤ :=
  if 2 * lsturPadding a = a.window_size - 1 then
    if a.user_embed_method = some "init" ∨ a.user_embed_method = some "cat" then
      match a.uid_path with
      | none => Except.error PyExc.valueError
      | some _ => Except.ok (lsturPadding a)
    else Except.ok (lsturPadding a)
  else Except.error PyExc.assertionError

/-! ## Helper lemmas -/

/-- The assertion `2 * ((w - 1) // 2) == w - 1` of the LSTUR constructor
holds exactly for odd `w`. -/
theorem two_mul_fdiv_sub_one (w : ℤ) : 2 * ((w - 1).fdiv 2) = w - 1 ↔ Odd w := by
  rw [Int.fdiv_eq_ediv _ (by norm_num), Int.odd_iff]
  omega

/-- Concrete evaluation of the interleaved-validation trigger for the
spec scenario `len_epoch = 10`, `valid_interval = 0.5`. -/
theorem validTrigger_ten_half :
    validTrigger 10 (1/2) = fun (b : ℕ) => ((b : ℤ) + 1) % 5 == 0 := by
  funext b
  have h5 : validTriggerPeriod 10 (1/2) = 5 := by norm_num [validTriggerPeriod]
  simp only [validTrigger, h5]

/-! ## Claims -/

/-- C1, counterexample: with `valid_interval = 0.5` and `len_epoch = 10`
the in-loop trigger `(batch_idx + 1) % ceil(10 * 0.5) == 0` fires not
only at batch index 4 but also at batch index 9, so the epoch does not
trigger exactly one interleaved validation. -/
theorem c1_trigger_counterexample :
    validTrigger 10 (1/2) 9 = true ∧ interleavedValidations 10 (1/2) ≠ [4] := by
  rw [interleavedValidations, validTrigger_ten_half]
  exact ⟨by decide, by decide⟩

/-- C1, amended: in `_train_epoch` an interleaved validation is
triggered exactly when `(batch_idx + 1) % ceil(len_epoch *
valid_interval) == 0`; for `valid_interval = 0.5` and `len_epoch = 10`
the loop triggers exactly two interleaved validations, at batch
indices 4 and 9, and the epoch additionally runs one final validation
at epoch end (passed `batch_idx = len_epoch = 10`). -/
theorem c1_validation_schedule :
    interleavedValidations 10 (1/2) = [4, 9] ∧
    epochValidationPoints 10 (1/2) = [4, 9, 10] := by
  rw [epochValidationPoints, interleavedValidations, validTrigger_ten_half]
  exact ⟨by decide, by decide⟩

/-- C2, code evaluated at the failing input: the clause
`except KeyError or RuntimeError` evaluates its class expression to
`KeyError` alone (Python `or` returns its first truthy operand), so a
`RuntimeError` raised while building the news-embedding cache under an
eligible fast-evaluation configuration propagates out of the
`try`/`except` instead of falling back to `news_embeds = None`; only a
`KeyError` is caught and degraded to slow evaluation. -/
theorem c2_runtime_error_propagates :
    exceptClause = PyExc.keyError ∧
    newsEmbedsStep fastConfig (Except.error PyExc.runtimeError : Except PyExc ℕ)
      = Except.error PyExc.runtimeError ∧
    newsEmbedsStep fastConfig (Except.error PyExc.keyError : Except PyExc ℕ)
      = Except.ok none :=
  ⟨rfl, rfl, rfl⟩

/-- C6: when the cache build returns normally, `_valid_epoch` builds the
news-embedding cache if and only if `valid_method` is
`"fast_evaluation"`, `return_weight` is false, the entropy auxiliary
loss is off and the topic variant is not `"variational_topic"`; in every
other case `news_embeds` is `None` (slow evaluation). -/
theorem c6_fast_eval_condition {α : Type} (c : EvalConfig) (e : α) :
    (newsEmbedsStep c (Except.ok e) = Except.ok (some e) ↔
      (c.valid_method = "fast_evaluation" ∧ c.return_weight = false ∧
       c.with_entropy = false ∧ c.topic_variant ≠ "variational_topic")) ∧
    ((c.valid_method ≠ "fast_evaluation" ∨ c.return_weight = true ∨
      c.with_entropy = true ∨ c.topic_variant = "variational_topic") →
        newsEmbedsStep c (Except.ok e) = Except.ok none) := by
  unfold newsEmbedsStep fastEvalEligible
  by_cases h1 : c.valid_method = "fast_evaluation" <;>
    by_cases h2 : c.return_weight = true <;>
      by_cases h3 : c.with_entropy = true <;>
        by_cases h4 : c.topic_variant = "variational_topic" <;>
          simp [h1, h2, h3, h4]

/-- C6, witness: a configuration requesting per-sample weights gets
`news_embeds = None` even under `valid_method = "fast_evaluation"`. -/
theorem c6_fast_eval_condition_witness :
    newsEmbedsStep (EvalConfig.mk "fast_evaluation" true false "base")
      (Except.ok (0 : ℕ)) = Except.ok none :=
  (c6_fast_eval_condition (EvalConfig.mk "fast_evaluation" true false "base") 0).2
    (Or.inr (Or.inl rfl))

/-- C3: each configured metric is applied only to the first
`candidate_length[i]` entries of the label and score rows (the result is
unchanged by any modification beyond that prefix), scaled by 100, and
stored under the impression's `impression_index`; in particular, for the
spec scenario `candidate_length = [3, 2]` with an accuracy metric, the
rows are computed over the first 3 and first 2 entries respectively and
keyed by the two impression indices, for every choice of padding. -/
theorem c3_metric_truncation :
    (∀ (metrics : List (String × (List ℚ → List ℚ → ℚ))) (lab lab2 pred pred2 : List ℚ)
        (n : ℕ), lab.take n = lab2.take n → pred.take n = pred2.take n →
        metricRow metrics lab pred n = metricRow metrics lab2 pred2 n) ∧
    (∀ p1 p2 p3 q1 q2 : ℚ,
      batchResults [("accuracy", accuracy)]
        (ValidBatch.mk [[1, 0, 1, p1], [0, 1, p2, p3]]
          [[9/10, 1/5, 4/5, q1], [1/10, 9/10, q2, q2]] [3, 2] [7, 11])
        = [(7, [("accuracy", 100)]), (11, [("accuracy", 100)])]) := by
  constructor
  · intro metrics lab lab2 pred pred2 n hl hp
    unfold metricRow
    rw [hl, hp]
  · intro p1 p2 p3 q1 q2
    norm_num [batchResults, metricRow, accuracy, List.range_succ,
      List.countP, List.countP.go]

/-- C3, witness: two label/score rows agreeing on their first entry give
the same metric row at truncation length 1. -/
theorem c3_metric_truncation_witness :
    metricRow [("accuracy", accuracy)] [1, 0] [1, 0] 1
      = metricRow [("accuracy", accuracy)] [1, 5] [1, 7] 1 :=
  c3_metric_truncation.1 [("accuracy", accuracy)] [1, 0] [1, 5] [1, 0] [1, 7] 1
    (by decide) (by decide)

/-- C4, counterexample: with `saved_weight_num = 1` and two batches of
two impressions each, the break `if vi >= saved_weight_num and
return_weight` tests the batch index after the batch is processed, so a
captured field ends up with four per-impression entries — more than
`saved_weight_num`. -/
theorem c4_weight_cap_counterexample :
    capturedEntries 1 0 [[0, 1], [2, 3]] = ([0, 1, 2, 3] : List ℕ) ∧
    ¬ ([0, 1, 2, 3] : List ℕ).length ≤ 1 := by
  exact ⟨by decide, by decide⟩

/-- Bound on the capture loop from an arbitrary starting batch index. -/
theorem capturedEntries_length_le {α : Type} (cap B : ℕ) :
    ∀ (batches : List (List α)) (vi : ℕ), vi ≤ cap →
      (∀ b ∈ batches, b.length ≤ B) →
      (capturedEntries cap vi batches).length ≤ (cap + 1 - vi) * B := by
  intro batches
  induction batches with
  | nil => intro vi _ _; simp [capturedEntries]
  | cons b rest ih =>
    intro vi hvi hB
    have hbB : b.length ≤ B := hB b (List.mem_cons_self b rest)
    have hrest : ∀ x ∈ rest, x.length ≤ B := fun x hx => hB x (List.mem_cons_of_mem b hx)
    by_cases h : cap ≤ vi
    · simp only [capturedEntries, if_pos h]
      calc b.length ≤ B := hbB
        _ = 1 * B := (one_mul B).symm
        _ ≤ (cap + 1 - vi) * B := Nat.mul_le_mul_right B (by omega)
    · simp only [capturedEntries, if_neg h]
      rw [List.length_append]
      have hstep := ih (vi + 1) (by omega) hrest
      have heq : (cap + 1 - vi) * B = B + (cap + 1 - (vi + 1)) * B := by
        have : cap + 1 - vi = (cap + 1 - (vi + 1)) + 1 := by omega
        rw [this, Nat.succ_mul, Nat.add_comm]
      rw [heq]
      exact Nat.add_le_add hbB hstep

/-- C4, amended: when `return_weight` is enabled, the weight-capture
loop stops after processing the batch whose 0-indexed batch counter
reaches `saved_weight_num` (default 250) — the cap bounds the number of
contributing batches (at most `saved_weight_num + 1`), not the number of
per-impression entries, so a field captured from batches of at most `B`
impressions holds at most `(saved_weight_num + 1) * B` entries. -/
theorem c4_weight_cap (cap B : ℕ) (batches : List (List ℕ))
    (hB : ∀ b ∈ batches, b.length ≤ B) :
    (capturedEntries cap 0 batches).length ≤ (cap + 1) * B := by
  have := capturedEntries_length_le cap B batches 0 (Nat.zero_le cap) hB
  simpa using this

/-- C4, witness: the bound evaluated on the counterexample input. -/
theorem c4_weight_cap_witness :
    (capturedEntries 1 0 [[0, 1], [2, 3]] : List ℕ).length ≤ (1 + 1) * 2 :=
  c4_weight_cap 1 2 [[0, 1], [2, 3]] (by decide)

/-- C5, counterexample: merging the prior on-disk dump A (entries
`[20]`) with the newly captured dump B (entries `[10]`) persists
`[10, 20]` — B's entries followed by A's — not A's followed by B's as
the claim states. -/
theorem c5_merge_counterexample :
    mergeDump [("label", [10])] [("label", ([20] : List ℕ))]
      = Except.ok [("label", [10, 20])] ∧
    ([10, 20] : List ℕ) ≠ [20, 10] := by
  exact ⟨rfl, by decide⟩

/-- C5, amended: the merge of the newly captured dump B with the prior
on-disk dump A is field-wise concatenative in the order B then A: for
every field of B also present in A, the persisted sequence equals B's
entries followed by A's entries, with no truncation beyond the
capture-time limit (fields only in A are dropped; a field of B missing
from A raises `KeyError`). -/
theorem c5_merge_concat {α : Type} (newDump oldDump : List (String × List α))
    (h : ∀ kv ∈ newDump, (oldDump.lookup kv.1).isSome = true) :
    mergeDump newDump oldDump =
      Except.ok (newDump.map (fun kv => (kv.1, kv.2 ++ (oldDump.lookup kv.1).getD []))) := by
  induction newDump with
  | nil => rfl
  | cons kv rest ih =>
    have hkv : (oldDump.lookup kv.1).isSome = true := h kv (List.mem_cons_self kv rest)
    obtain ⟨ov, hov⟩ := Option.isSome_iff_exists.mp hkv
    have hrest := ih (fun x hx => h x (List.mem_cons_of_mem kv hx))
    simp only [mergeDump, List.mapM_cons] at hrest ⊢
    rw [hov]
    simp only [List.map_cons, hov]
    rw [show (List.mapM (fun kv =>
        match oldDump.lookup kv.1 with
        | some ov => Except.ok (kv.1, kv.2 ++ ov)
        | none => Except.error PyExc.keyError) rest : Except PyExc _)
      = Except.ok (rest.map (fun kv => (kv.1, kv.2 ++ (oldDump.lookup kv.1).getD []))) from hrest]
    rfl

/-- C5, witness: the amended merge evaluated on a two-entry new dump. -/
theorem c5_merge_concat_witness :
    mergeDump [("history_index", [1, 2])] [("history_index", ([3] : List ℕ))]
      = Except.ok [("history_index", [1, 2, 3])] :=
  c5_merge_concat [("history_index", [1, 2])] [("history_index", [3])] (by decide)

/-- C7, counterexample: `_validation` has no `try`/`finally`; when the
wrapped `_valid_epoch` raises (here a `RuntimeError`), the final
`self.model.train()` on line 56 is skipped and control leaves
`_validation` with the model still in eval mode. -/
theorem c7_restore_counterexample :
    validationRun (Except.error PyExc.runtimeError : Except PyExc Unit)
      (Except.ok ()) true = (Mode.eval, some PyExc.runtimeError) ∧
    Mode.eval ≠ Mode.train := by
  exact ⟨rfl, by decide⟩

/-- C7, amended: `_validation` restores the model to training mode
before every normal return (whether or not monitoring runs); but when
the wrapped validation pass or the monitoring step raises, the exception
propagates and the model is left in eval mode. -/
theorem c7_restore_on_return {α : Type} (ve : Except PyExc α)
    (mon : Except PyExc Unit) (dm : Bool)
    (h : (validationRun ve mon dm).2 = none) :
    (validationRun ve mon dm).1 = Mode.train := by
  cases ve with
  | error e => simp [validationRun] at h
  | ok v =>
    cases dm with
    | false => rfl
    | true =>
      cases mon with
      | error e => simp [validationRun] at h
      | ok u => rfl

/-- C7, witness: a run in which validation and monitoring both return
normally ends in training mode. -/
theorem c7_restore_on_return_witness :
    (validationRun (Except.ok () : Except PyExc Unit) (Except.ok ()) true).1
      = Mode.train :=
  c7_restore_on_return (Except.ok ()) (Except.ok ()) true rfl

/-- C8: constructing `LSTURRSModel` with `user_embed_method` equal to
`"init"` or `"cat"` and no `uid_path` never completes; with an odd
(assertion-passing) window size the failure is precisely the
`ValueError` of line 36. -/
theorem c8_uid_path_required (a : LSTURArgs)
    (hm : a.user_embed_method = some "init" ∨ a.user_embed_method = some "cat")
    (hp : a.uid_path = none) :
    (∀ p, lsturInit a ≠ Except.ok p) ∧
    (Odd a.window_size → lsturInit a = Except.error PyExc.valueError) := by
  unfold lsturInit
  by_cases hw : 2 * lsturPadding a = a.window_size - 1
  · simp [hw, hm, hp]
  · constructor
    · intro p
      simp [hw]
    · intro hodd
      exact absurd ((two_mul_fdiv_sub_one a.window_size).mpr hodd) hw

/-- C8, witness: `window_size = 3`, `user_embed_method = "init"`,
`uid_path` absent raises `ValueError`. -/
theorem c8_uid_path_required_witness :
    lsturInit (LSTURArgs.mk 3 (some "init") none) = Except.error PyExc.valueError :=
  (c8_uid_path_required (LSTURArgs.mk 3 (some "init") none)
    (Or.inl rfl) rfl).2 ⟨1, by norm_num⟩

/-- C9: the constructor's assertion
`2 * ((window_size - 1) // 2) == window_size - 1` fails (raising
`AssertionError`) exactly when `window_size` is not odd; every even
`window_size` fails construction with the assertion error, and no odd
one does. -/
theorem c9_window_size_odd (a : LSTURArgs) :
    lsturInit a = Except.error PyExc.assertionError ↔ ¬ Odd a.window_size := by
  unfold lsturInit
  by_cases hw : 2 * lsturPadding a = a.window_size - 1
  · have hodd : Odd a.window_size := (two_mul_fdiv_sub_one a.window_size).mp hw
    by_cases hm : a.user_embed_method = some "init" ∨ a.user_embed_method = some "cat"
    · cases hu : a.uid_path <;> simp [hw, hm, hu, hodd]
    · simp [hw, hm, hodd]
  · have hodd : ¬ Odd a.window_size := fun ho =>
      hw ((two_mul_fdiv_sub_one a.window_size).mpr ho)
    simp [hw, hodd]

/-- C9, witness: the even window size 4 fails with the assertion error,
and the odd window size 5 passes the assertion (failing later, if at
all, only with the `ValueError` of C8). -/
theorem c9_window_size_odd_witness :
    lsturInit (LSTURArgs.mk 4 none none) = Except.error PyExc.assertionError :=
  (c9_window_size_odd (LSTURArgs.mk 4 none none)).mpr (by decide)

/-- C10: when the validation loader yields zero batches, `_valid_epoch`
does not return a result: the loop variable `batch_dict` is never bound,
so the cleanup statement `del batch_dict` on line 265 raises
`NameError` instead of completing. -/
theorem c10_empty_loader_name_error
    (metrics : List (String × (List ℚ → List ℚ → ℚ))) :
    validEpochRun metrics [] = Except.error PyExc.nameError :=
  rfl

end ExplainableNRS
